import Mathlib

/-!
Verification of the plant-catalog service (src/backend/main.py) and the image
pipeline (src/generate_images.py) against its natural-language specification.

The Python code is shallowly embedded: strings are Lean `String`s, Python float
values arising in the sort keys are modelled by `PyFloat` (an exact rational or
the IEEE positive infinity produced by `float('inf')`; every numeric value the
code manipulates here is a small decimal, so exact rationals are faithful),
exceptions are modelled by `Except`/`Option`, and the regular expressions used
by the code are embedded as the concrete scanning functions they denote.
Python `str.lower` is modelled on the ASCII range, which covers every character
class the code inspects (digits, `cm`/`m`/`year`/`month` keywords).
-/

namespace PlantCatalog

/-- Python `str.lower` on one character, restricted to ASCII (the only range the
backend inspects: keywords and digits are all ASCII). -/
def pyLowerChar (c : Char) : Char :=
  if c = 'A' then 'a' else if c = 'B' then 'b' else if c = 'C' then 'c'
  else if c = 'D' then 'd' else if c = 'E' then 'e' else if c = 'F' then 'f'
  else if c = 'G' then 'g' else if c = 'H' then 'h' else if c = 'I' then 'i'
  else if c = 'J' then 'j' else if c = 'K' then 'k' else if c = 'L' then 'l'
  else if c = 'M' then 'm' else if c = 'N' then 'n' else if c = 'O' then 'o'
  else if c = 'P' then 'p' else if c = 'Q' then 'q' else if c = 'R' then 'r'
  else if c = 'S' then 's' else if c = 'T' then 't' else if c = 'U' then 'u'
  else if c = 'V' then 'v' else if c = 'W' then 'w' else if c = 'X' then 'x'
  else if c = 'Y' then 'y' else if c = 'Z' then 'z'
  else c

/-- Python `str.lower` on a character list. -/
def pyLower (l : List Char) : List Char := l.map pyLowerChar

/-- The ASCII part of the Python regex `\s` class / `str.strip` default set. -/
def isPySpace (c : Char) : Bool :=
  c == ' ' || c == '\t' || c == '\n' || c == '\r' || c == '\x0b' || c == '\x0c'

/-- Python `str.strip()` (both ends, whitespace). -/
def pyStrip (l : List Char) : List Char :=
  ((l.dropWhile isPySpace).reverse.dropWhile isPySpace).reverse

/-- Whether `needle` occurs at the start of `hay` (helper for substring tests). -/
def leadsWith : List Char → List Char → Bool
  | [], _ => true
  | _ :: _, [] => false
  | a :: as, b :: bs => a == b && leadsWith as bs

/-- Python substring containment, `needle in hay`. -/
def containsSeq (needle : List Char) : List Char → Bool
  | [] => leadsWith needle []
  | c :: rest => leadsWith needle (c :: rest) || containsSeq needle rest

/-- Numeric value of a decimal digit character. -/
def digitVal (c : Char) : Nat := c.toNat - 48

/-- Value of a run of decimal digits (what Python `float`/`int` compute on it). -/
def digitsToNat (l : List Char) : Nat := l.foldl (fun a c => 10 * a + digitVal c) 0

/-- Scanner for `re.findall(r'\d+', s)`: `cur` is the reversed digit run being
accumulated. Returns the maximal digit runs of the input in order. -/
def digitRunsGo (cur : List Char) : List Char → List (List Char)
  | [] => if cur = [] then [] else [cur.reverse]
  | c :: rest =>
    if c.isDigit then digitRunsGo (c :: cur) rest
    else if cur = [] then digitRunsGo [] rest
    else cur.reverse :: digitRunsGo [] rest

/-- `re.findall(r'\d+', s)`: all maximal runs of digits, in order of appearance. -/
def digitRuns (l : List Char) : List (List Char) := digitRunsGo [] l

/-- A Python float as the backend sort keys produce it: an exact numeric value
or `float('inf')`. All numeric values involved are exact small decimals. -/
inductive PyFloat
  | val (q : ℚ)
  | inf
deriving DecidableEq, Repr

/-- A sort key as returned by the maturity/lifespan/spacing helpers: a
`(start, end)` pair of Python floats. -/
abbrev SortKey := PyFloat × PyFloat

/-- Python `<` on the modelled floats (`inf` is greater than every number). -/
def PyFloat.lt : PyFloat → PyFloat → Bool
  | .val a, .val b => decide (a < b)
  | .val _, .inf => true
  | .inf, _ => false

/-- Python `<` on `(start, end)` key tuples (lexicographic). -/
def keyLt (a b : SortKey) : Bool :=
  if PyFloat.lt a.1 b.1 then true
  else if PyFloat.lt b.1 a.1 then false
  else PyFloat.lt a.2 b.2

/-- Embeds `parse_maturity` (src/backend/main.py lines 38-59): sort key for
time-to-maturity strings, in months. Empty input and input without digits give
`(inf, inf)`; if `year` occurs in the lowercased text every number is scaled
by 12; one number gives `(n, n)`, two give `(first, second)`. -/
def parse_maturity (val : String) : SortKey :=
  if val = "" then (.inf, .inf)
  else
    let s := pyLower val.data
    match digitRuns s with
    | [] => (.inf, .inf)
    | n1 :: rest =>
      let factor : ℚ := if containsSeq ['y', 'e', 'a', 'r'] s then 12 else 1
      let start : ℚ := (digitsToNat n1 : ℚ) * factor
      let stop : ℚ :=
        match rest with
        | [] => start
        | n2 :: _ => (digitsToNat n2 : ℚ) * factor
      (.val start, .val stop)

/-- Embeds `parse_lifespan` (src/backend/main.py lines 61-97): sort key for
lifespan strings, in years. The literal substrings `annual`, `biennial`,
`perennial` are special-cased (in that order) before any numeric parsing; then
integers are extracted, scaled by 1/12 when `month` occurs without `year`;
no numbers at all gives `(9999, 9999)`; empty input gives `(inf, inf)`. -/
def parse_lifespan (val : String) : SortKey :=
  if val = "" then (.inf, .inf)
  else
    let s := pyLower val.data
    if containsSeq ['a', 'n', 'n', 'u', 'a', 'l'] s then (.val (1/10), .val (1/10))
    else if containsSeq ['b', 'i', 'e', 'n', 'n', 'i', 'a', 'l'] s then (.val (1/5), .val (1/5))
    else if containsSeq ['p', 'e', 'r', 'e', 'n', 'n', 'i', 'a', 'l'] s then (.val (3/10), .val (3/10))
    else
      match digitRuns s with
      | [] => (.val 9999, .val 9999)
      | n1 :: rest =>
        let isMonths :=
          containsSeq ['m', 'o', 'n', 't', 'h'] s && !containsSeq ['y', 'e', 'a', 'r'] s
        let factor : ℚ := if isMonths then 1/12 else 1
        let start : ℚ := (digitsToNat n1 : ℚ) * factor
        let stop : ℚ :=
          match rest with
          | [] => start
          | n2 :: _ => (digitsToNat n2 : ℚ) * factor
        (.val start, .val stop)

/-- Embeds `parse_strata` (src/backend/main.py lines 99-109): the dict lookup
`order.get(val, 99)` with the four exact keys; anything else maps to 99. -/
def parse_strata (val : String) : Nat :=
  if val = "Emergent" then 0
  else if val = "Low" then 1
  else if val = "Medium" then 2
  else if val = "High" then 3
  else 99

/-- Python exception classes raised by the embedded code paths. -/
inductive PyErr
  | typeError
  | attributeError
  | valueError
deriving DecidableEq, Repr

/-- Explicit unit captured by the second group of `re.findall(r'([\d\.]+)\s*(cm|m)?', s)`. -/
inductive SpUnit
  | cm
  | m
deriving DecidableEq, Repr

/-- Character class `[\d\.]` of the spacing regex. -/
def isDigitOrDot (c : Char) : Bool := c.isDigit || c == '.'

/-- Scanner state for the spacing regex `([\d\.]+)\s*(cm|m)?`: outside any
match, inside the `[\d\.]+` run (reversed accumulator), or inside the `\s*`
run that follows it. -/
inductive SpScan
  | base
  | run (acc : List Char)
  | gap (acc : List Char)
deriving Repr

/-- One left-to-right scan implementing `re.findall(r'([\d\.]+)\s*(cm|m)?', s)`:
maximal `[\d\.]+` runs, each with the optional `cm`/`m` unit that follows its
trailing whitespace (`cm` is tried before `m`, as in the regex alternation);
scanning resumes after the consumed unit, exactly as `findall` resumes after
each match. -/
def spacingScan (st : SpScan) : List Char → List (List Char × Option SpUnit)
  | [] =>
    match st with
    | .base => []
    | .run acc => [(acc.reverse, none)]
    | .gap acc => [(acc.reverse, none)]
  | c :: rest =>
    match st with
    | .base =>
      if isDigitOrDot c then spacingScan (.run [c]) rest
      else spacingScan .base rest
    | .run acc =>
      if isDigitOrDot c then spacingScan (.run (c :: acc)) rest
      else if isPySpace c then spacingScan (.gap acc) rest
      else if c = 'c' then
        match rest with
        | m1 :: r2 =>
          if m1 = 'm' then (acc.reverse, some SpUnit.cm) :: spacingScan .base r2
          else (acc.reverse, none) :: spacingScan .base (m1 :: r2)
        | [] => (acc.reverse, none) :: spacingScan .base []
      else if c = 'm' then (acc.reverse, some SpUnit.m) :: spacingScan .base rest
      else (acc.reverse, none) :: spacingScan .base rest
    | .gap acc =>
      if isPySpace c then spacingScan (.gap acc) rest
      else if isDigitOrDot c then (acc.reverse, none) :: spacingScan (.run [c]) rest
      else if c = 'c' then
        match rest with
        | m1 :: r2 =>
          if m1 = 'm' then (acc.reverse, some SpUnit.cm) :: spacingScan .base r2
          else (acc.reverse, none) :: spacingScan .base (m1 :: r2)
        | [] => (acc.reverse, none) :: spacingScan .base []
      else if c = 'm' then (acc.reverse, some SpUnit.m) :: spacingScan .base rest
      else (acc.reverse, none) :: spacingScan .base rest

/-- `re.findall(r'([\d\.]+)\s*(cm|m)?', s)`. -/
def spacingTokens (l : List Char) : List (List Char × Option SpUnit) :=
  spacingScan .base l

/-- Split a token at its dots (Python float syntax analysis). -/
def splitDots : List Char → List (List Char)
  | [] => [[]]
  | c :: rest =>
    if c = '.' then [] :: splitDots rest
    else
      match splitDots rest with
      | [] => [[c]]
      | h :: t => (c :: h) :: t

/-- Python `float()` applied to a token matched by `[\d\.]+`: defined exactly
when the token has at least one digit and at most one dot (so `float(".")`,
`float("..")`, `float("1.2.3")` raise ValueError, modelled by `none`). -/
def parseFloatTok (t : List Char) : Option ℚ :=
  match splitDots t with
  | [a] => if a = [] then none else some (digitsToNat a)
  | [a, b] =>
    if a = [] ∧ b = [] then none
    else some ((digitsToNat a : ℚ) + (digitsToNat b : ℚ) / 10 ^ b.length)
  | _ => none

/-- The per-token loop of `parse_spacing` (lines 147-165): convert each matched
token with `float()` (raising ValueError on a malformed token), then scale by
the explicit unit when present and by the global factor otherwise. -/
def spacingVals (globalFactor : ℚ) : List (List Char × Option SpUnit) → Except PyErr (List ℚ)
  | [] => .ok []
  | (tok, u) :: rest =>
    if tok = [] then spacingVals globalFactor rest
    else
      match parseFloatTok tok with
      | none => .error PyErr.valueError
      | some v =>
        let w : ℚ :=
          match u with
          | some SpUnit.cm => v * (1/100)
          | some SpUnit.m => v * 1
          | none => v * globalFactor
        match spacingVals globalFactor rest with
        | .error e => .error e
        | .ok vs => .ok (w :: vs)

/-- Embeds `parse_spacing` (src/backend/main.py lines 111-173): sort key for
spacing strings in meters. Tokens with an explicit unit use it (`cm` scales by
1/100, `m` by 1); tokens without one use the global factor, 1/100 when `cm`
occurs anywhere in the lowercased string and 1 otherwise. Python `float()`
raising ValueError on a malformed token is the `.error` branch. -/
def parse_spacing (val : String) : Except PyErr SortKey :=
  if val = "" then .ok (.inf, .inf)
  else
    let s := pyLower val.data
    let ms := spacingTokens s
    if ms = [] then .ok (.inf, .inf)
    else
      let globalFactor : ℚ := if containsSeq ['c', 'm'] s then 1/100 else 1
      match spacingVals globalFactor ms with
      | .error e => .error e
      | .ok [] => .ok (.inf, .inf)
      | .ok [v] => .ok (.val v, .val v)
      | .ok (v1 :: v2 :: _) => .ok (.val v1, .val v2)

/-- The scale a number receives: its explicit unit when present (`cm` is
1/100 of a meter, `m` is 1), the global bias `gf` otherwise. -/
def unitFactorOf (gf : ℚ) : Option SpUnit → ℚ
  | some SpUnit.cm => 1/100
  | some SpUnit.m => 1
  | none => gf

/-- The spacing key as the specification words it: a number with an explicit
unit uses that unit (`cm` scales by 1/100, `m` by 1); a number without a unit
is treated as centimeters when `cm` occurs anywhere in the string and as meters
otherwise; the first value is the start, the second (when present) the end,
otherwise end = start; no numeric match gives `(inf, inf)`. A matched token
that is not a valid number propagates `float()`'s ValueError, as in the code. -/
def spacingKeySpec (val : String) : Except PyErr SortKey :=
  if val = "" then .ok (.inf, .inf)
  else
    let s := pyLower val.data
    let gf : ℚ := if containsSeq ['c', 'm'] s then 1/100 else 1
    match (spacingTokens s).mapM (fun tu => (parseFloatTok tu.1).map (· * unitFactorOf gf tu.2)) with
    | none => .error PyErr.valueError
    | some [] => .ok (.inf, .inf)
    | some (v :: vs) => .ok (.val v, .val (vs.headD v))

/-- One record of the catalog CSV after `pd.read_csv(...).fillna("")`: the
columns the backend reads, all as strings (missing cells are `""`). -/
structure Row where
  englishName : String
  botanicalName : String
  plantFamily : String
  strata : String
  lifecycle : String
  timeToMaturity : String
  lifespan : String
  zone : String
  origin : String
  function : String
  spacing : String
deriving DecidableEq, Repr

/-- The query parameters of `GET /api/plants` (all optional). -/
structure PlantQuery where
  q : Option String
  ids : Option (List String)
  plant_family : Option (List String)
  strata : Option (List String)
  lifecycle : Option (List String)
  time_to_maturity : Option (List String)
  lifespan : Option (List String)
  zone : Option (List String)
  origin : Option (List String)
  function : Option (List String)
  spacing : Option (List String)
deriving Repr

/-- The request with no parameters at all. -/
def emptyQuery : PlantQuery :=
  ⟨none, none, none, none, none, none, none, none, none, none, none⟩

/-- Python truthiness of an optional list parameter (`if values:`):
false for absent and for the empty list. -/
def optListTruthy : Option (List String) → Bool
  | some (_ :: _) => true
  | _ => false

/-- Python truthiness of the optional search string (`if q:`). -/
def optStrTruthy : Option String → Bool
  | some s => !(s == "")
  | none => false

/-- One token of the regex pattern `str.contains` compiles: pandas
`Series.str.contains(q, ...)` treats `q` as a regular expression. The model
covers the literal characters and the `.` wildcard; it treats every other
character literally, which agrees with Python `re` exactly when the pattern
contains no further regex metacharacter. -/
inductive RTok
  | lit (c : Char)
  | dot
deriving DecidableEq, Repr

/-- Compile a pattern under `re.IGNORECASE` (`case=False`). -/
def compileCI (pat : List Char) : List RTok :=
  pat.map fun c => if c = '.' then RTok.dot else RTok.lit (pyLowerChar c)

/-- Match the compiled pattern at the start of the text (`.` matches any
character except a newline, as in `re` without DOTALL). -/
def matchHere : List RTok → List Char → Bool
  | [], _ => true
  | _ :: _, [] => false
  | RTok.dot :: ps, c :: cs => !(c == '\n') && matchHere ps cs
  | RTok.lit a :: ps, c :: cs => a == pyLowerChar c && matchHere ps cs

/-- `re.search`: try the pattern at every start position. -/
def reSearch (ps : List RTok) : List Char → Bool
  | [] => matchHere ps []
  | c :: rest => matchHere ps (c :: rest) || reSearch ps rest

/-- pandas `Series.str.contains(q, case=False, na=False)` applied to one cell
(the cell is never NaN here because `load_data` ran `fillna("")`). -/
def pdContainsCI (q : String) (cell : String) : Bool :=
  reSearch (compileCI q.data) cell.data

/-- Case-insensitive literal substring containment — the relation the spec
describes for the search text. -/
def ciSubstring (q s : String) : Bool :=
  containsSeq (pyLower q.data) (pyLower s.data)

/-- The regex metacharacters of Python `re`; the embedded matcher is faithful
for patterns containing none of them except `.`. -/
def regexMeta : List Char :=
  ['.', '^', '$', '*', '+', '?', '\x7b', '\x7d', '[', ']', '\\', '|', '(', ')']

/-- `filtered_df[filtered_df["Botanical Name"].isin(ids)]` guarded by `if ids:`. -/
def applyIdsFilter (ids : Option (List String)) (rows : List Row) : List Row :=
  match ids with
  | some (i :: is) => rows.filter fun r => (i :: is).contains r.botanicalName
  | _ => rows

/-- The search step of get_plants (lines 216-221), guarded by `if q:`. -/
def applyQFilter (q : Option String) (rows : List Row) : List Row :=
  match q with
  | some s =>
    if s = "" then rows
    else rows.filter fun r => pdContainsCI s r.englishName || pdContainsCI s r.botanicalName
  | none => rows

/-- One step of the `for col, values in filter_map.items()` loop (lines
239-241): `if values: filtered_df = filtered_df[filtered_df[col].isin(values)]`. -/
def applyColFilter (get : Row → String) (vs : Option (List String)) (rows : List Row) : List Row :=
  match vs with
  | some (v :: vl) => rows.filter fun r => (v :: vl).contains (get r)
  | _ => rows

/-- Embeds `get_plants` (src/backend/main.py lines 195-249) on a loaded
DataFrame: sequential filtering by ids, search text, then the nine filter
categories in the order of `filter_map`. -/
def get_plants (rows : List Row) (Q : PlantQuery) : List Row :=
  applyColFilter Row.spacing Q.spacing
    (applyColFilter Row.function Q.function
      (applyColFilter Row.origin Q.origin
        (applyColFilter Row.zone Q.zone
          (applyColFilter Row.lifespan Q.lifespan
            (applyColFilter Row.timeToMaturity Q.time_to_maturity
              (applyColFilter Row.lifecycle Q.lifecycle
                (applyColFilter Row.strata Q.strata
                  (applyColFilter Row.plantFamily Q.plant_family
                    (applyQFilter Q.q
                      (applyIdsFilter Q.ids rows))))))))))

/-- Per the spec: a row satisfies one filter category when its value for that
column is a member of the selected value set (OR within the category); an
absent or empty selection imposes no constraint. -/
def rowMatchesCat (get : Row → String) (vs : Option (List String)) (r : Row) : Bool :=
  match vs with
  | some (v :: vl) => (v :: vl).contains (get r)
  | _ => true

/-- Per the spec: the conjunction of the nine category constraints. -/
def rowMatchesCats (Q : PlantQuery) (r : Row) : Bool :=
  rowMatchesCat Row.plantFamily Q.plant_family r &&
  (rowMatchesCat Row.strata Q.strata r &&
  (rowMatchesCat Row.lifecycle Q.lifecycle r &&
  (rowMatchesCat Row.timeToMaturity Q.time_to_maturity r &&
  (rowMatchesCat Row.lifespan Q.lifespan r &&
  (rowMatchesCat Row.zone Q.zone r &&
  (rowMatchesCat Row.origin Q.origin r &&
  (rowMatchesCat Row.function Q.function r &&
  rowMatchesCat Row.spacing Q.spacing r)))))))

/-- Per the spec: the id constraint (membership of the botanical name in the
id list) when a non-empty id list was supplied. -/
def rowMatchesIds (ids : Option (List String)) (r : Row) : Bool :=
  match ids with
  | some (i :: is) => (i :: is).contains r.botanicalName
  | _ => true

/-- The search constraint as the code evaluates it (pandas regex containment
on either name field); no constraint for an absent or empty search text. -/
def rowMatchesSearch (q : Option String) (r : Row) : Bool :=
  match q with
  | some s =>
    if s = "" then true
    else pdContainsCI s r.englishName || pdContainsCI s r.botanicalName
  | none => true

/-- Per the spec: a row matches the whole query when it satisfies the id
constraint AND the search constraint AND every category constraint. -/
def rowMatchesQuery (Q : PlantQuery) (r : Row) : Bool :=
  rowMatchesIds Q.ids r && (rowMatchesSearch Q.q r && rowMatchesCats Q r)

/-- The value bound to `df_plants`: a DataFrame when the CSV file exists, and
the plain empty Python list that `load_data` returns when it does not. -/
inductive LoadedData
  | frame (rows : List Row)
  | emptyPyList
deriving Repr

/-- Embeds `load_data` (src/backend/main.py lines 27-34): the filesystem is
passed in as whether the CSV exists and which rows it holds. -/
def load_data (csvExists : Bool) (csvRows : List Row) : LoadedData :=
  if csvExists then LoadedData.frame csvRows else LoadedData.emptyPyList

/-- First-occurrence deduplication, the order `Series.unique()` returns. -/
def uniqueVals : List String → List String
  | [] => []
  | x :: rest => x :: uniqueVals (rest.filter fun y => !(y == x))
termination_by l => l.length
decreasing_by
  simp only [List.length_cons]
  exact Nat.lt_succ_of_le (List.length_filter_le _ rest)

/-- Stable insertion into a sorted list (strict `lt`): equal elements keep
their original relative order, as Python `sorted` guarantees. -/
def insertLt (lt : α → α → Bool) (x : α) : List α → List α
  | [] => [x]
  | y :: ys => if lt x y then x :: y :: ys else y :: insertLt lt x ys

/-- Stable ascending sort (Python `sorted`). -/
def sortedBy (lt : α → α → Bool) (l : List α) : List α :=
  l.foldl (fun acc x => insertLt lt x acc) []

/-- Python `<` on strings: lexicographic on code points. -/
def chListLt : List Char → List Char → Bool
  | [], [] => false
  | [], _ :: _ => true
  | _ :: _, [] => false
  | a :: as, b :: bs => if a < b then true else if b < a then false else chListLt as bs

/-- Python `<` on strings. -/
def strLt (a b : String) : Bool := chListLt a.data b.data

/-- Python `sorted(l, key=key)` for a total key. -/
def sortByKey (lt : κ → κ → Bool) (key : String → κ) (l : List String) : List String :=
  (sortedBy (fun a b => lt a.1 b.1) (l.map fun s => (key s, s))).map (·.2)

/-- Python `sorted(l, key=key)` when the key can raise: `sorted` evaluates the
key of every element (in order) before comparing, so the first key failure
propagates. -/
def sortByKeyE (lt : κ → κ → Bool) (key : String → Except PyErr κ) (l : List String) :
    Except PyErr (List String) :=
  match l.mapM (fun s => (key s).map fun k => (k, s)) with
  | .error e => .error e
  | .ok ks => .ok ((sortedBy (fun a b => lt a.1 b.1) ks).map (·.2))

/-- The nine filter-option lists returned by `GET /api/filters`. -/
structure FilterOptions where
  plant_family : List String
  strata : List String
  lifecycle : List String
  time_to_maturity : List String
  lifespan : List String
  zone : List String
  origin : List String
  function : List String
  spacing : List String
deriving DecidableEq, Repr

/-- Drop empty strings (lines 191-192). -/
def dropEmpties (l : List String) : List String := l.filter fun x => !(x == "")

/-- The body of get_filters on an actual DataFrame (lines 179-193): unique
values per column, each list sorted with its key, empty strings removed. The
spacing sort can propagate `float()`'s ValueError through its key. -/
def get_filters_rows (rows : List Row) : Except PyErr FilterOptions :=
  match sortByKeyE keyLt parse_spacing (uniqueVals (rows.map Row.spacing)) with
  | .error e => .error e
  | .ok spacingSorted =>
    .ok
      ⟨dropEmpties (sortedBy strLt (uniqueVals (rows.map Row.plantFamily))),
       dropEmpties (sortByKey Nat.blt parse_strata (uniqueVals (rows.map Row.strata))),
       dropEmpties (sortedBy strLt (uniqueVals (rows.map Row.lifecycle))),
       dropEmpties (sortByKey keyLt parse_maturity (uniqueVals (rows.map Row.timeToMaturity))),
       dropEmpties (sortByKey keyLt parse_lifespan (uniqueVals (rows.map Row.lifespan))),
       dropEmpties (sortedBy strLt (uniqueVals (rows.map Row.zone))),
       dropEmpties (sortedBy strLt (uniqueVals (rows.map Row.origin))),
       dropEmpties (sortedBy strLt (uniqueVals (rows.map Row.function))),
       dropEmpties spacingSorted⟩

/-- Embeds the `GET /api/filters` handler `get_filters` (lines 175-193).
When `load_data` returned the plain empty Python list, the very first column
access `df_plants["Plant Family"]` raises
TypeError (list indices must be integers or slices, not str). -/
def get_filters (d : LoadedData) : Except PyErr FilterOptions :=
  match d with
  | LoadedData.emptyPyList => .error PyErr.typeError
  | LoadedData.frame rows => get_filters_rows rows

/-- Whether any query constraint is truthy (determines which statement of
get_plants runs first into the list-instead-of-DataFrame value). -/
def queryHasConstraint (Q : PlantQuery) : Bool :=
  optListTruthy Q.ids || optStrTruthy Q.q ||
  optListTruthy Q.plant_family || optListTruthy Q.strata ||
  optListTruthy Q.lifecycle || optListTruthy Q.time_to_maturity ||
  optListTruthy Q.lifespan || optListTruthy Q.zone ||
  optListTruthy Q.origin || optListTruthy Q.function || optListTruthy Q.spacing

/-- Embeds the `GET /api/plants` handler against the loaded dataset. When
`load_data` returned the plain empty Python list, `[].copy()` still succeeds,
but the first truthy filter raises TypeError (string indexing of a list) and,
with no constraints at all, the final `.to_dict(orient="records")` call raises
AttributeError (list object has no attribute to_dict). -/
def get_plants_endpoint (d : LoadedData) (Q : PlantQuery) : Except PyErr (List Row) :=
  match d with
  | LoadedData.emptyPyList =>
    .error (if queryHasConstraint Q then PyErr.typeError else PyErr.attributeError)
  | LoadedData.frame rows => .ok (get_plants rows Q)

/-- What the image pipeline does with one CSV row (src/generate_images.py):
skip without any network call, or submit a generation request. -/
inductive RowAction
  | skippedMissingData
  | skippedExisting
  | dryRunOnly
  | submitted
deriving DecidableEq, Repr

/-- Embeds the per-row decision of `main` (lines 290-307) combined with
`process_plant`'s own existence and dry-run checks (lines 184-194): the row
fields are stripped; a row missing its image name or its prompt is skipped
first; then an existing destination file is skipped; in dry-run mode nothing
is submitted; otherwise `submit_generation_task` is called. -/
def rowAction (imageNameRaw promptRaw : String) (fileExists dryRunFlag : Bool) : RowAction :=
  let image_name := pyStrip imageNameRaw.data
  let prompt := pyStrip promptRaw.data
  if image_name = [] ∨ prompt = [] then RowAction.skippedMissingData
  else if fileExists then RowAction.skippedExisting
  else if dryRunFlag then RowAction.dryRunOnly
  else RowAction.submitted

/-- Polling configuration (src/generate_images.py lines 53-54). -/
def POLL_INTERVAL : Nat := 5

/-- Maximum seconds to wait for a single image. -/
def MAX_POLL_TIME : Nat := 600

/-- One response of `GET /record-info`, as the fields `poll_task_status`
reads: `data.get("successFlag")`, `data.get("errorMessage")`. -/
structure PollResp where
  successFlag : Option Int
  errorMessage : Option String
deriving DecidableEq, Repr

/-- How `poll_task_status` terminates: normal return of the task data on
successFlag 1; an Exception on successFlag 2 or 3 (both caught by
process_plant, which logs ERROR and reports the row as failed); a
TimeoutError once the elapsed time exceeds `MAX_POLL_TIME`. -/
inductive PollResult
  | success (resp : PollResp)
  | failed (msg : String)
  | timedOut
deriving DecidableEq, Repr

/-- Embeds the `while True` loop of `poll_task_status` (lines 129-160). The
elapsed time is checked against `MAX_POLL_TIME` before each request; the
scripted list holds the successive remote responses (`none` result means the
loop is still running when the script ends). Between iterations the modelled
clock advances by the sleep interval; the real elapsed time grows at least
that fast, and the theorems quantify over the elapsed value. -/
def pollLoop : List PollResp → Nat → Option PollResult
  | resps, elapsed =>
    if MAX_POLL_TIME < elapsed then some PollResult.timedOut
    else
      match resps with
      | [] => none
      | r :: rest =>
        match r.successFlag with
        | some 1 => some (PollResult.success r)
        | some 2 =>
          some (PollResult.failed
            ("Task creation failed: " ++ r.errorMessage.getD "Task creation failed"))
        | some 3 =>
          some (PollResult.failed
            ("Generation failed: " ++ r.errorMessage.getD "Generation failed"))
        | _ => pollLoop rest (elapsed + POLL_INTERVAL)

/-- `poll_task_status` starts its clock at task submission. -/
def poll_task_status (resps : List PollResp) : Option PollResult :=
  pollLoop resps 0

/-! ### Helper lemmas -/

theorem filter_all_true {l : List α} {p : α → Bool} (h : ∀ a ∈ l, p a = true) :
    l.filter p = l :=
  List.filter_eq_self.mpr h

theorem applyIdsFilter_eq (ids : Option (List String)) (rows : List Row) :
    applyIdsFilter ids rows = rows.filter (rowMatchesIds ids) := by
  match ids with
  | none => exact (filter_all_true fun a _ => rfl).symm
  | some [] => exact (filter_all_true fun a _ => rfl).symm
  | some (i :: is) => rfl

theorem applyQFilter_eq (q : Option String) (rows : List Row) :
    applyQFilter q rows = rows.filter (rowMatchesSearch q) := by
  match q with
  | none => exact (filter_all_true fun a _ => rfl).symm
  | some s =>
    by_cases hs : s = ""
    · subst hs
      exact (filter_all_true fun a _ => rfl).symm
    · simp only [applyQFilter, if_neg hs]
      exact List.filter_congr fun r _ => by simp [rowMatchesSearch, if_neg hs]

theorem applyColFilter_eq (get : Row → String) (vs : Option (List String)) (rows : List Row) :
    applyColFilter get vs rows = rows.filter (rowMatchesCat get vs) := by
  match vs with
  | none => exact (filter_all_true fun a _ => rfl).symm
  | some [] => exact (filter_all_true fun a _ => rfl).symm
  | some (v :: vl) => rfl

theorem bool_chain_reorder (b1 b2 b3 b4 b5 b6 b7 b8 b9 b10 b11 : Bool) :
    (b11 && (b10 && (b9 && (b8 && (b7 && (b6 && (b5 && (b4 && (b3 && (b2 && b1)))))))))) =
      (b1 && (b2 && (b3 && (b4 && (b5 && (b6 && (b7 && (b8 && (b9 && (b10 && b11)))))))))) := by
  cases b1 <;> cases b2 <;> cases b3 <;> cases b4 <;> cases b5 <;> cases b6 <;>
    cases b7 <;> cases b8 <;> cases b9 <;> cases b10 <;> cases b11 <;> rfl

/-- The sequential filters of get_plants are one pass with the conjunction of
all constraints. -/
theorem get_plants_eq_filter (rows : List Row) (Q : PlantQuery) :
    get_plants rows Q = rows.filter (rowMatchesQuery Q) := by
  unfold get_plants
  rw [applyIdsFilter_eq, applyQFilter_eq]
  rw [applyColFilter_eq, applyColFilter_eq, applyColFilter_eq, applyColFilter_eq,
    applyColFilter_eq, applyColFilter_eq, applyColFilter_eq, applyColFilter_eq,
    applyColFilter_eq]
  simp only [List.filter_filter]
  refine List.filter_congr fun r _ => ?_
  simp only [rowMatchesQuery, rowMatchesCats]
  exact bool_chain_reorder _ _ _ _ _ _ _ _ _ _ _

theorem rowMatchesQuery_empty (r : Row) : rowMatchesQuery emptyQuery r = true := rfl

/-! Substring search versus the embedded regex search, for patterns without
the dot wildcard. -/

theorem matchHere_no_dot {qd : List Char} (h : '.' ∉ qd) (s : List Char) :
    matchHere (compileCI qd) s = leadsWith (pyLower qd) (pyLower s) := by
  induction qd generalizing s with
  | nil => cases s <;> rfl
  | cons a as ih =>
    have ha : a ≠ '.' := fun e => h (e ▸ List.mem_cons_self a as)
    have has : '.' ∉ as := fun e => h (List.mem_cons_of_mem a e)
    cases s with
    | nil =>
      simp only [compileCI, List.map_cons, pyLower, matchHere, leadsWith, if_neg ha]
    | cons c cs =>
      simp only [compileCI, List.map_cons, pyLower, List.map, matchHere, leadsWith, if_neg ha]
      have := ih has cs
      simp only [compileCI, pyLower] at this
      rw [this]

theorem reSearch_no_dot {qd : List Char} (h : '.' ∉ qd) (s : List Char) :
    reSearch (compileCI qd) s = containsSeq (pyLower qd) (pyLower s) := by
  induction s with
  | nil =>
    simp only [reSearch, containsSeq, pyLower, List.map]
    have := matchHere_no_dot h []
    simpa [pyLower] using this
  | cons c cs ih =>
    simp only [reSearch, containsSeq, pyLower, List.map_cons]
    rw [ih]
    have := matchHere_no_dot h (c :: cs)
    simp only [pyLower, List.map_cons] at this
    rw [this]
    rfl

theorem pdContainsCI_no_dot {q : String} (h : '.' ∉ q.data) (cell : String) :
    pdContainsCI q cell = ciSubstring q cell :=
  reSearch_no_dot h cell.data

/-! ### Claims C5 and C6: query semantics -/

/-- Claim C5: for every query, get_plants returns exactly the rows of the
catalog, in original catalog order, that satisfy the conjunction (AND) of the
id constraint, the search constraint and all supplied filter categories, where
a category is satisfied by membership of the row's column value in the
selected set (OR within a category); absent or empty filter inputs impose no
constraint, so the parameterless request returns every row unchanged. -/
theorem C5_query_conjunction :
    (∀ (rows : List Row) (Q : PlantQuery),
      get_plants rows Q = rows.filter (rowMatchesQuery Q)) ∧
    (∀ rows : List Row, get_plants rows emptyQuery = rows) := by
  refine ⟨get_plants_eq_filter, fun rows => ?_⟩
  rw [get_plants_eq_filter]
  exact filter_all_true fun r _ => rowMatchesQuery_empty r

/-- A catalog row whose English name is "xyz" (all other columns blank). -/
def xyzRow : Row := ⟨"xyz", "", "", "", "", "", "", "", "", "", ""⟩

/-- A request carrying only the search text. -/
def searchOnlyQuery (q : String) : PlantQuery :=
  ⟨some q, none, none, none, none, none, none, none, none, none, none⟩

/-- Claim C6, counterexample: the search text is handed to pandas
`str.contains`, which treats it as a regular expression, so the query "x.z"
keeps the row named "xyz" even though "x.z" is not a case-insensitive
substring of either name field — the claim's "keeps exactly the substring
matches" fails at this input. -/
theorem C6_search_regex_cex :
    get_plants [xyzRow] (searchOnlyQuery "x.z") = [xyzRow] ∧
    ciSubstring "x.z" xyzRow.englishName = false ∧
    ciSubstring "x.z" xyzRow.botanicalName = false := by
  refine ⟨?_, by decide, by decide⟩
  simp +decide [get_plants, applyIdsFilter, applyQFilter, applyColFilter, searchOnlyQuery,
    pdContainsCI, compileCI, reSearch, matchHere, pyLowerChar, xyzRow]

/-- Claim C6 (amended): for every non-empty search text that contains no
regex metacharacter, get_plants keeps exactly the rows where the text is a
case-insensitive substring of the English name or of the botanical name (OR
of the two fields), and this predicate combines with the id filter and the
category filters by conjunction. (The unamended claim fails because pandas
`str.contains` interprets the text as a regular expression; see the
counterexample.) -/
theorem C6_search_substring_amended :
    ∀ (Q : PlantQuery) (q : String) (rows : List Row),
      Q.q = some q → q ≠ "" → (∀ c ∈ q.data, c ∉ regexMeta) →
      get_plants rows Q = rows.filter fun r =>
        (ciSubstring q r.englishName || ciSubstring q r.botanicalName) &&
        (rowMatchesIds Q.ids r && rowMatchesCats Q r) := by
  intro Q q rows hq hne hmeta
  have hdot : '.' ∉ q.data := fun hd => hmeta '.' hd (by simp [regexMeta])
  rw [get_plants_eq_filter]
  refine List.filter_congr fun r _ => ?_
  simp only [rowMatchesQuery, rowMatchesSearch, hq, if_neg hne,
    pdContainsCI_no_dot hdot]
  exact Bool.and_left_comm _ _ _

/-- Witness for C6 (amended) at the search text "xy" on the "xyz" row. -/
theorem C6_search_substring_amended_witness :
    ("xy" ≠ "" ∧ ∀ c ∈ "xy".data, c ∉ regexMeta) ∧
    get_plants [xyzRow] (searchOnlyQuery "xy") =
      List.filter (fun r =>
        (ciSubstring "xy" r.englishName || ciSubstring "xy" r.botanicalName) &&
        (rowMatchesIds (searchOnlyQuery "xy").ids r &&
          rowMatchesCats (searchOnlyQuery "xy") r)) [xyzRow] :=
  ⟨⟨by decide, by decide⟩,
    C6_search_substring_amended (searchOnlyQuery "xy") "xy" [xyzRow] rfl (by decide) (by decide)⟩

/-! ### Claim C2: image pipeline skip/submit decision -/

/-- Claim C2, counterexample: a row with an image name but no prompt, whose
destination file does not exist, is skipped with no network call, although
the claim says a row is skipped only when the file exists or the row lacks
BOTH a filename and a prompt (here a filename is present, so the claim
predicts a submission). -/
theorem C2_skip_either_missing_cex :
    pyStrip "a.png".data ≠ [] ∧
    rowAction "a.png" "" false false = RowAction.skippedMissingData ∧
    rowAction "a.png" "" false false ≠ RowAction.submitted := by decide

/-- Claim C2 (amended): a row is skipped with no network call exactly when
the destination file already exists or the row lacks a filename OR lacks a
prompt (the missing-data check runs first); a generation request is submitted
exactly when the file is absent and both the filename and the prompt are
present (outside dry-run mode). -/
theorem C2_skip_submit_amended :
    ∀ (n p : String) (ex : Bool),
      (rowAction n p ex false = RowAction.submitted ↔
        ex = false ∧ pyStrip n.data ≠ [] ∧ pyStrip p.data ≠ []) ∧
      (rowAction n p ex false = RowAction.skippedMissingData ↔
        pyStrip n.data = [] ∨ pyStrip p.data = []) ∧
      (rowAction n p ex false = RowAction.skippedExisting ↔
        ex = true ∧ pyStrip n.data ≠ [] ∧ pyStrip p.data ≠ []) := by
  intro n p ex
  unfold rowAction
  by_cases h1 : pyStrip n.data = [] ∨ pyStrip p.data = []
  · simp only [if_pos h1]
    cases ex <;> simp_all [not_or] <;> tauto
  · simp only [if_neg h1]
    rw [not_or] at h1
    cases ex <;> simp_all

/-! ### Claim C9: polling loop terminal states -/

/-- Claim C9: in the polling loop, elapsed time is checked against the fixed
ceiling before every request, so once it exceeds `MAX_POLL_TIME` the task
terminates as timed out regardless of the remote state; and a remote
successFlag of 2 (creation failed) or 3 (generation failed) both terminate
the task as failed, carrying the remote-supplied error message. -/
theorem C9_poll_terminal :
    (∀ (resps : List PollResp) (elapsed : Nat), MAX_POLL_TIME < elapsed →
      pollLoop resps elapsed = some PollResult.timedOut) ∧
    (∀ (r : PollResp) (rest : List PollResp) (elapsed : Nat) (msg : String),
      elapsed ≤ MAX_POLL_TIME → r.successFlag = some 2 → r.errorMessage = some msg →
      pollLoop (r :: rest) elapsed =
        some (PollResult.failed ("Task creation failed: " ++ msg))) ∧
    (∀ (r : PollResp) (rest : List PollResp) (elapsed : Nat) (msg : String),
      elapsed ≤ MAX_POLL_TIME → r.successFlag = some 3 → r.errorMessage = some msg →
      pollLoop (r :: rest) elapsed =
        some (PollResult.failed ("Generation failed: " ++ msg))) := by
  refine ⟨fun resps elapsed h => ?_, fun r rest elapsed msg h h2 hm => ?_,
    fun r rest elapsed msg h h3 hm => ?_⟩
  · rw [pollLoop.eq_def]
    simp [h]
  · rw [pollLoop.eq_def]
    simp [Nat.not_lt.mpr h, h2, hm]
  · rw [pollLoop.eq_def]
    simp [Nat.not_lt.mpr h, h3, hm]

/-- Witness for C9: a timeout just past the ceiling, and one concrete failed
poll for each failing flag. -/
theorem C9_poll_terminal_witness :
    (MAX_POLL_TIME < 601 ∧ pollLoop [PollResp.mk (some 0) none] 601 = some PollResult.timedOut) ∧
    pollLoop [PollResp.mk (some 2) (some "quota")] 0 =
      some (PollResult.failed ("Task creation failed: " ++ "quota")) ∧
    pollLoop [PollResp.mk (some 3) (some "nsfw")] 5 =
      some (PollResult.failed ("Generation failed: " ++ "nsfw")) :=
  ⟨⟨by decide, C9_poll_terminal.1 [PollResp.mk (some 0) none] 601 (by decide)⟩,
    C9_poll_terminal.2.1 (PollResp.mk (some 2) (some "quota")) [] 0 "quota" (by decide) rfl rfl,
    C9_poll_terminal.2.2 (PollResp.mk (some 3) (some "nsfw")) [] 5 "nsfw" (by decide) rfl rfl⟩

/-! ### Claim C10: strata key is exact and case-sensitive -/

/-- Claim C10: parse_strata matches its four recognized values exactly and
case-sensitively — every other string, including case variants and padded
values, maps to 99 — unlike the maturity, lifespan and spacing keys, which
lowercase their input before matching (shown by case-invariance instances). -/
theorem C10_strata_exact_match :
    (∀ s : String, s ≠ "Emergent" → s ≠ "Low" → s ≠ "Medium" → s ≠ "High" →
      parse_strata s = 99) ∧
    parse_strata "low" = 99 ∧ parse_strata "HIGH" = 99 ∧ parse_strata " High" = 99 ∧
    parse_strata "Emergent" = 0 ∧ parse_strata "Low" = 1 ∧
    parse_strata "Medium" = 2 ∧ parse_strata "High" = 3 ∧
    parse_lifespan "PERENNIAL" = parse_lifespan "perennial" ∧
    parse_maturity "1 YEAR" = parse_maturity "1 year" ∧
    parse_spacing "10-20 CM" = parse_spacing "10-20 cm" := by
  refine ⟨fun s h1 h2 h3 h4 => ?_, by decide, by decide, by decide, by decide, by decide,
    by decide, by decide, ?_, ?_, ?_⟩
  · unfold parse_strata
    rw [if_neg h1, if_neg h2, if_neg h3, if_neg h4]
  · simp +decide [parse_lifespan, pyLower, pyLowerChar, containsSeq, leadsWith]
  · simp +decide [parse_maturity, pyLower, pyLowerChar, digitRuns, digitRunsGo,
      containsSeq, leadsWith, digitsToNat, digitVal]
  · simp +decide [parse_spacing, pyLower, pyLowerChar, spacingTokens, spacingScan,
      isDigitOrDot, isPySpace, containsSeq, leadsWith, spacingVals, parseFloatTok,
      splitDots, digitsToNat, digitVal]

/-- Witness for C10 at an unrecognized strata value. -/
theorem C10_strata_exact_match_witness : parse_strata "Shrub" = 99 :=
  C10_strata_exact_match.1 "Shrub" (by decide) (by decide) (by decide) (by decide)

/-! ### Claim C1: behavior when the dataset file is missing -/

/-- A favorites request (id list only). -/
def favoritesQuery : PlantQuery :=
  ⟨none, some ["Ficus lyrata"], none, none, none, none, none, none, none, none, none⟩

/-- Claim C1 is the intent of load_data's graceful `return []`, but the code
slips: the handlers receive a plain Python list instead of a DataFrame, so
with the CSV missing, GET /filters raises TypeError at
`df_plants["Plant Family"]`, and GET /plants raises AttributeError at
`.to_dict` (no parameters) or TypeError at the first truthy filter — neither
endpoint returns the empty results the spec promises. -/
theorem C1_missing_dataset_raises :
    get_filters (load_data false []) = Except.error PyErr.typeError ∧
    get_plants_endpoint (load_data false []) emptyQuery = Except.error PyErr.attributeError ∧
    get_plants_endpoint (load_data false []) favoritesQuery = Except.error PyErr.typeError ∧
    get_plants_endpoint (load_data false []) (searchOnlyQuery "fern") =
      Except.error PyErr.typeError :=
  ⟨rfl, rfl, rfl, rfl⟩

/-! ### Character and digit-run lemmas -/

theorem pyLowerChar_isDigit (c : Char) : (pyLowerChar c).isDigit = c.isDigit := by
  unfold pyLowerChar
  by_cases h1 : c = 'A'
  · subst h1; decide
  rw [if_neg h1]
  by_cases h2 : c = 'B'
  · subst h2; decide
  rw [if_neg h2]
  by_cases h3 : c = 'C'
  · subst h3; decide
  rw [if_neg h3]
  by_cases h4 : c = 'D'
  · subst h4; decide
  rw [if_neg h4]
  by_cases h5 : c = 'E'
  · subst h5; decide
  rw [if_neg h5]
  by_cases h6 : c = 'F'
  · subst h6; decide
  rw [if_neg h6]
  by_cases h7 : c = 'G'
  · subst h7; decide
  rw [if_neg h7]
  by_cases h8 : c = 'H'
  · subst h8; decide
  rw [if_neg h8]
  by_cases h9 : c = 'I'
  · subst h9; decide
  rw [if_neg h9]
  by_cases h10 : c = 'J'
  · subst h10; decide
  rw [if_neg h10]
  by_cases h11 : c = 'K'
  · subst h11; decide
  rw [if_neg h11]
  by_cases h12 : c = 'L'
  · subst h12; decide
  rw [if_neg h12]
  by_cases h13 : c = 'M'
  · subst h13; decide
  rw [if_neg h13]
  by_cases h14 : c = 'N'
  · subst h14; decide
  rw [if_neg h14]
  by_cases h15 : c = 'O'
  · subst h15; decide
  rw [if_neg h15]
  by_cases h16 : c = 'P'
  · subst h16; decide
  rw [if_neg h16]
  by_cases h17 : c = 'Q'
  · subst h17; decide
  rw [if_neg h17]
  by_cases h18 : c = 'R'
  · subst h18; decide
  rw [if_neg h18]
  by_cases h19 : c = 'S'
  · subst h19; decide
  rw [if_neg h19]
  by_cases h20 : c = 'T'
  · subst h20; decide
  rw [if_neg h20]
  by_cases h21 : c = 'U'
  · subst h21; decide
  rw [if_neg h21]
  by_cases h22 : c = 'V'
  · subst h22; decide
  rw [if_neg h22]
  by_cases h23 : c = 'W'
  · subst h23; decide
  rw [if_neg h23]
  by_cases h24 : c = 'X'
  · subst h24; decide
  rw [if_neg h24]
  by_cases h25 : c = 'Y'
  · subst h25; decide
  rw [if_neg h25]
  by_cases h26 : c = 'Z'
  · subst h26; decide
  rw [if_neg h26]

theorem pyLowerChar_ne_dot {c : Char} (h : c ≠ '.') : pyLowerChar c ≠ '.' := by
  unfold pyLowerChar
  by_cases h1 : c = 'A'
  · subst h1; decide
  rw [if_neg h1]
  by_cases h2 : c = 'B'
  · subst h2; decide
  rw [if_neg h2]
  by_cases h3 : c = 'C'
  · subst h3; decide
  rw [if_neg h3]
  by_cases h4 : c = 'D'
  · subst h4; decide
  rw [if_neg h4]
  by_cases h5 : c = 'E'
  · subst h5; decide
  rw [if_neg h5]
  by_cases h6 : c = 'F'
  · subst h6; decide
  rw [if_neg h6]
  by_cases h7 : c = 'G'
  · subst h7; decide
  rw [if_neg h7]
  by_cases h8 : c = 'H'
  · subst h8; decide
  rw [if_neg h8]
  by_cases h9 : c = 'I'
  · subst h9; decide
  rw [if_neg h9]
  by_cases h10 : c = 'J'
  · subst h10; decide
  rw [if_neg h10]
  by_cases h11 : c = 'K'
  · subst h11; decide
  rw [if_neg h11]
  by_cases h12 : c = 'L'
  · subst h12; decide
  rw [if_neg h12]
  by_cases h13 : c = 'M'
  · subst h13; decide
  rw [if_neg h13]
  by_cases h14 : c = 'N'
  · subst h14; decide
  rw [if_neg h14]
  by_cases h15 : c = 'O'
  · subst h15; decide
  rw [if_neg h15]
  by_cases h16 : c = 'P'
  · subst h16; decide
  rw [if_neg h16]
  by_cases h17 : c = 'Q'
  · subst h17; decide
  rw [if_neg h17]
  by_cases h18 : c = 'R'
  · subst h18; decide
  rw [if_neg h18]
  by_cases h19 : c = 'S'
  · subst h19; decide
  rw [if_neg h19]
  by_cases h20 : c = 'T'
  · subst h20; decide
  rw [if_neg h20]
  by_cases h21 : c = 'U'
  · subst h21; decide
  rw [if_neg h21]
  by_cases h22 : c = 'V'
  · subst h22; decide
  rw [if_neg h22]
  by_cases h23 : c = 'W'
  · subst h23; decide
  rw [if_neg h23]
  by_cases h24 : c = 'X'
  · subst h24; decide
  rw [if_neg h24]
  by_cases h25 : c = 'Y'
  · subst h25; decide
  rw [if_neg h25]
  by_cases h26 : c = 'Z'
  · subst h26; decide
  rw [if_neg h26]
  exact h

theorem digitRunsGo_nil : ∀ l : List Char, (∀ c ∈ l, c.isDigit = false) →
    digitRunsGo [] l = [] := by
  intro l
  induction l with
  | nil => intro _; rfl
  | cons c rest ih =>
    intro h
    have hc := h c (List.mem_cons_self c rest)
    simp [digitRunsGo, hc, ih fun d hd => h d (List.mem_cons_of_mem c hd)]

theorem digitRuns_of_no_digits {s : String} (h : ∀ c ∈ s.data, c.isDigit = false) :
    digitRuns (pyLower s.data) = [] := by
  refine digitRunsGo_nil _ fun c hc => ?_
  obtain ⟨d, hd, rfl⟩ := List.mem_map.mp hc
  rw [pyLowerChar_isDigit]
  exact h d hd

theorem containsSeq_nil_of_cons (a : Char) (needle : List Char) :
    containsSeq (a :: needle) [] = false := rfl

/-! ### Claim C8: maturity key -/

/-- Claim C8: parse_maturity extracts the integers of the input in order of
appearance; if `year` occurs anywhere every extracted number is multiplied by
12; one number gives `(n, n)`, two give `(first, second)` (the second run is
used for the end), and an input with no digits — or the empty input — gives
`(inf, inf)`; in particular "6-8 months" gives (6, 8) and "1 year" (12, 12). -/
theorem C8_maturity_key :
    (∀ s : String, (∀ c ∈ s.data, c.isDigit = false) → parse_maturity s = (.inf, .inf)) ∧
    parse_maturity "" = (PyFloat.inf, PyFloat.inf) ∧
    (∀ (s : String) (n1 : List Char) (rest : List (List Char)),
      digitRuns (pyLower s.data) = n1 :: rest → s ≠ "" →
      parse_maturity s =
        (let factor : ℚ := if containsSeq ['y', 'e', 'a', 'r'] (pyLower s.data) then 12 else 1
         (PyFloat.val ((digitsToNat n1 : ℚ) * factor),
          PyFloat.val ((digitsToNat (rest.headD n1) : ℚ) * factor)))) ∧
    parse_maturity "6-8 months" = (PyFloat.val 6, PyFloat.val 8) ∧
    parse_maturity "1 year" = (PyFloat.val 12, PyFloat.val 12) ∧
    parse_maturity "6 months" = (PyFloat.val 6, PyFloat.val 6) := by
  refine ⟨fun s h => ?_, rfl, fun s n1 rest hruns hne => ?_, ?_, ?_, ?_⟩
  · by_cases hs : s = ""
    · simp [parse_maturity, hs]
    · simp [parse_maturity, if_neg hs, digitRuns_of_no_digits h]
  · cases rest <;> simp [parse_maturity, if_neg hne, hruns]
  · simp +decide [parse_maturity, pyLower, pyLowerChar, digitRuns, digitRunsGo,
      containsSeq, leadsWith, digitsToNat, digitVal]
  · simp +decide [parse_maturity, pyLower, pyLowerChar, digitRuns, digitRunsGo,
      containsSeq, leadsWith, digitsToNat, digitVal]
  · simp +decide [parse_maturity, pyLower, pyLowerChar, digitRuns, digitRunsGo,
      containsSeq, leadsWith, digitsToNat, digitVal]

/-- Witness for C8 at a digit-free input. -/
theorem C8_maturity_key_witness : parse_maturity "unknown" = (PyFloat.inf, PyFloat.inf) :=
  C8_maturity_key.1 "unknown" (by decide)

/-! ### Claim C7: lifespan key -/

theorem containsSeq_ne_empty {needle : List Char} {s : String} (hn : needle ≠ [])
    (h : containsSeq needle (pyLower s.data) = true) : s ≠ "" := by
  rintro rfl
  match needle, hn with
  | a :: as, _ => simp [pyLower, containsSeq, leadsWith] at h

/-- Claim C7: the lifespan key checks the literal substrings before any
numeric parsing, in priority order annual (0.1, 0.1), biennial (0.2, 0.2),
perennial (0.3, 0.3) — so "Annual (6 months)" is (0.1, 0.1), not a numeric
parse; otherwise, for every input whose lowercased text yields digit runs, it
extracts those integers in order, scaling by 1/12 exactly when `month` occurs
without `year` (one number gives (n, n), two give (first, second)); a
non-empty string with no numbers and none of the special words gives
(9999, 9999), while a blank input gives (inf, inf). -/
theorem C7_lifespan_key :
    (∀ s : String, containsSeq ['a', 'n', 'n', 'u', 'a', 'l'] (pyLower s.data) = true →
      parse_lifespan s = (PyFloat.val (1/10), PyFloat.val (1/10))) ∧
    (∀ s : String, containsSeq ['a', 'n', 'n', 'u', 'a', 'l'] (pyLower s.data) = false →
      containsSeq ['b', 'i', 'e', 'n', 'n', 'i', 'a', 'l'] (pyLower s.data) = true →
      parse_lifespan s = (PyFloat.val (1/5), PyFloat.val (1/5))) ∧
    (∀ s : String, containsSeq ['a', 'n', 'n', 'u', 'a', 'l'] (pyLower s.data) = false →
      containsSeq ['b', 'i', 'e', 'n', 'n', 'i', 'a', 'l'] (pyLower s.data) = false →
      containsSeq ['p', 'e', 'r', 'e', 'n', 'n', 'i', 'a', 'l'] (pyLower s.data) = true →
      parse_lifespan s = (PyFloat.val (3/10), PyFloat.val (3/10))) ∧
    (∀ s : String, s ≠ "" →
      containsSeq ['a', 'n', 'n', 'u', 'a', 'l'] (pyLower s.data) = false →
      containsSeq ['b', 'i', 'e', 'n', 'n', 'i', 'a', 'l'] (pyLower s.data) = false →
      containsSeq ['p', 'e', 'r', 'e', 'n', 'n', 'i', 'a', 'l'] (pyLower s.data) = false →
      digitRuns (pyLower s.data) = [] →
      parse_lifespan s = (PyFloat.val 9999, PyFloat.val 9999)) ∧
    (∀ (s : String) (n1 : List Char) (rest : List (List Char)), s ≠ "" →
      containsSeq ['a', 'n', 'n', 'u', 'a', 'l'] (pyLower s.data) = false →
      containsSeq ['b', 'i', 'e', 'n', 'n', 'i', 'a', 'l'] (pyLower s.data) = false →
      containsSeq ['p', 'e', 'r', 'e', 'n', 'n', 'i', 'a', 'l'] (pyLower s.data) = false →
      digitRuns (pyLower s.data) = n1 :: rest →
      parse_lifespan s =
        (let factor : ℚ :=
          if containsSeq ['m', 'o', 'n', 't', 'h'] (pyLower s.data) &&
              !containsSeq ['y', 'e', 'a', 'r'] (pyLower s.data) then 1/12 else 1
         (PyFloat.val ((digitsToNat n1 : ℚ) * factor),
          PyFloat.val ((digitsToNat (rest.headD n1) : ℚ) * factor)))) ∧
    parse_lifespan "" = (PyFloat.inf, PyFloat.inf) ∧
    parse_lifespan "Annual (6 months)" = (PyFloat.val (1/10), PyFloat.val (1/10)) ∧
    parse_lifespan "6 months" = (PyFloat.val (1/2), PyFloat.val (1/2)) ∧
    parse_lifespan "6-18 months" = (PyFloat.val (1/2), PyFloat.val (3/2)) ∧
    parse_lifespan "2-3 years" = (PyFloat.val 2, PyFloat.val 3) ∧
    parse_lifespan "10-15" = (PyFloat.val 10, PyFloat.val 15) := by
  refine ⟨fun s h => ?_, fun s h1 h2 => ?_, fun s h1 h2 h3 => ?_,
    fun s hne h1 h2 h3 hruns => ?_, fun s n1 rest hne h1 h2 h3 hruns => ?_,
    rfl, ?_, ?_, ?_, ?_, ?_⟩
  · have hne := containsSeq_ne_empty (by decide) h
    simp [parse_lifespan, if_neg hne, h]
  · have hne := containsSeq_ne_empty (by decide) h2
    simp [parse_lifespan, if_neg hne, h1, h2]
  · have hne := containsSeq_ne_empty (by decide) h3
    simp [parse_lifespan, if_neg hne, h1, h2, h3]
  · simp [parse_lifespan, if_neg hne, h1, h2, h3, hruns]
  · cases rest <;> simp [parse_lifespan, if_neg hne, h1, h2, h3, hruns]
  · simp +decide [parse_lifespan, pyLower, pyLowerChar, containsSeq, leadsWith]
  · simp +decide [parse_lifespan, pyLower, pyLowerChar, digitRuns, digitRunsGo,
      containsSeq, leadsWith, digitsToNat, digitVal]
    norm_num
  · simp +decide [parse_lifespan, pyLower, pyLowerChar, digitRuns, digitRunsGo,
      containsSeq, leadsWith, digitsToNat, digitVal]
    norm_num
  · simp +decide [parse_lifespan, pyLower, pyLowerChar, digitRuns, digitRunsGo,
      containsSeq, leadsWith, digitsToNat, digitVal]
  · simp +decide [parse_lifespan, pyLower, pyLowerChar, digitRuns, digitRunsGo,
      containsSeq, leadsWith, digitsToNat, digitVal]

/-- Witness for C7: the priority of "annual" over the digits in
"Annual (6 months)" via the first clause, and the universal numeric clause
applied at "6-18 months", a two-number input exercising the 1/12 factor. -/
theorem C7_lifespan_key_witness :
    parse_lifespan "Annual (6 months)" = (PyFloat.val (1/10), PyFloat.val (1/10)) ∧
    parse_lifespan "6-18 months" = (PyFloat.val (1/2), PyFloat.val (3/2)) := by
  refine ⟨C7_lifespan_key.1 "Annual (6 months)" (by decide), ?_⟩
  have h := C7_lifespan_key.2.2.2.2.1 "6-18 months" ['6'] [['1', '8']]
    (by decide) (by decide) (by decide) (by decide) (by decide)
  rw [h]
  simp +decide [pyLower, pyLowerChar, containsSeq, leadsWith, digitsToNat, digitVal]
  norm_num

/-! ### Spacing tokenizer invariants -/

/-- Invariant carried by the scanner state: a pending run is non-empty and all
its characters satisfy `p` and the `[\d\.]` class. -/
def scanAccOk (p : Char → Bool) : SpScan → Prop
  | SpScan.base => True
  | SpScan.run a => a ≠ [] ∧ ∀ c ∈ a, p c = true ∧ isDigitOrDot c = true
  | SpScan.gap a => a ≠ [] ∧ ∀ c ∈ a, p c = true ∧ isDigitOrDot c = true

set_option maxHeartbeats 2000000 in
/-- Every token the spacing scanner emits is a non-empty run of `[\d\.]`
characters drawn from the input. -/
theorem spacingScan_chars (p : Char → Bool) :
    ∀ (st : SpScan) (l : List Char),
      (∀ c ∈ l, p c = true) → scanAccOk p st →
      ∀ t ∈ spacingScan st l, t.1 ≠ [] ∧ ∀ c ∈ t.1, p c = true ∧ isDigitOrDot c = true := by
  intro st l
  induction st, l using spacingScan.induct <;> intro hl hst t ht <;>
    rw [spacingScan.eq_def] at ht <;> simp_all [scanAccOk] <;>
    (try rcases ht with rfl | ht) <;>
    first
      | simp_all [List.mem_reverse, List.reverse_eq_nil_iff]
      | (obtain ⟨a, b⟩ := t; solve_by_elim)

theorem spacingScan_base_nil : ∀ l : List Char, (∀ c ∈ l, isDigitOrDot c = false) →
    spacingScan SpScan.base l = [] := by
  intro l
  induction l with
  | nil => intro _; rfl
  | cons c rest ih =>
    intro h
    rw [spacingScan.eq_def]
    simp [h c (List.mem_cons_self c rest), ih fun d hd => h d (List.mem_cons_of_mem c hd)]

theorem splitDots_no_dot : ∀ t : List Char, (∀ c ∈ t, c ≠ '.') → splitDots t = [t] := by
  intro t
  induction t with
  | nil => intro _; rfl
  | cons c rest ih =>
    intro h
    simp only [splitDots, if_neg (h c (List.mem_cons_self c rest)),
      ih fun d hd => h d (List.mem_cons_of_mem c hd)]

theorem parseFloatTok_digits (t : List Char) (hne : t ≠ []) (h : ∀ c ∈ t, c ≠ '.') :
    parseFloatTok t = some (digitsToNat t : ℚ) := by
  simp [parseFloatTok, splitDots_no_dot t h, hne]

theorem spacingVals_ok (gf : ℚ) :
    ∀ ts : List (List Char × Option SpUnit),
      (∀ t ∈ ts, ∃ q, parseFloatTok t.1 = some q) →
      ∃ vs, spacingVals gf ts = .ok vs := by
  intro ts
  induction ts with
  | nil => intro _; exact ⟨[], rfl⟩
  | cons tu rest ih =>
    intro h
    obtain ⟨q, hq⟩ := h tu (List.mem_cons_self tu rest)
    obtain ⟨vs, hvs⟩ := ih fun t ht => h t (List.mem_cons_of_mem tu ht)
    by_cases he : tu.1 = []
    · exact ⟨vs, by simp [spacingVals, he, hvs]⟩
    · obtain ⟨tok, u⟩ := tu
      refine ⟨((match u with
          | some SpUnit.cm => q * (1/100)
          | some SpUnit.m => q * 1
          | none => q * gf) :: vs), ?_⟩
      simp only [spacingVals, if_neg he, hq, hvs]
      cases u with
      | none => rfl
      | some su => cases su <;> rfl

/-- The per-token loop computes exactly the spec-side per-token map, provided
no matched token is empty (the scanner guarantees that). -/
theorem spacingVals_eq_mapM (gf : ℚ) :
    ∀ ts : List (List Char × Option SpUnit), (∀ t ∈ ts, t.1 ≠ []) →
      spacingVals gf ts =
        match ts.mapM (fun tu => (parseFloatTok tu.1).map (· * unitFactorOf gf tu.2)) with
        | none => .error PyErr.valueError
        | some vs => .ok vs := by
  intro ts
  induction ts with
  | nil => intro _; rfl
  | cons tu rest ih =>
    intro h
    have hne := h tu (List.mem_cons_self tu rest)
    have ihr := ih fun t ht => h t (List.mem_cons_of_mem tu ht)
    obtain ⟨tok, u⟩ := tu
    simp only [spacingVals, if_neg hne, List.mapM_cons]
    cases hq : parseFloatTok tok with
    | none => simp [Option.bind, hq]
    | some q =>
      rw [ihr]
      cases hm : rest.mapM (fun tu => (parseFloatTok tu.1).map (· * unitFactorOf gf tu.2)) with
      | none => simp [Option.bind, hq, hm]
      | some vs =>
        simp only [hq, hm]
        cases u with
        | none => simp [unitFactorOf, Option.bind, hm]
        | some su => cases su <;> simp [unitFactorOf, Option.bind, hm]

theorem spacingTokens_ne_nil_toks (l : List Char) :
    ∀ t ∈ spacingTokens l, t.1 ≠ [] := fun t ht =>
  (spacingScan_chars (fun _ => true) SpScan.base l (fun _ _ => rfl) trivial t ht).1

/-- parse_spacing computes exactly the spec-side spacing key, on every input. -/
theorem parse_spacing_eq_spec (val : String) : parse_spacing val = spacingKeySpec val := by
  by_cases hv : val = ""
  · simp [parse_spacing, spacingKeySpec, hv]
  · simp only [parse_spacing, spacingKeySpec, if_neg hv]
    by_cases hms : spacingTokens (pyLower val.data) = []
    · simp [hms]
      rfl
    · simp only [if_neg hms]
      rw [spacingVals_eq_mapM _ _ (spacingTokens_ne_nil_toks _)]
      cases hm : (spacingTokens (pyLower val.data)).mapM
          (fun tu => (parseFloatTok tu.1).map
            (· * unitFactorOf
              (if containsSeq ['c', 'm'] (pyLower val.data) then 1/100 else 1) tu.2)) with
      | none => rfl
      | some vs =>
        match vs with
        | [] => rfl
        | [v] => rfl
        | v1 :: v2 :: t => rfl

theorem parse_spacing_total_no_dot (s : String) (hd : '.' ∉ s.data) :
    ∃ k, parse_spacing s = .ok k := by
  by_cases hv : s = ""
  · exact ⟨(PyFloat.inf, PyFloat.inf), by simp [parse_spacing, hv]⟩
  · have hp : ∀ c ∈ pyLower s.data, (!(c == '.')) = true := by
      intro c hc
      obtain ⟨d, hdm, rfl⟩ := List.mem_map.mp hc
      have hdd : d ≠ '.' := fun e => hd (e ▸ hdm)
      simpa using pyLowerChar_ne_dot hdd
    have htoks := spacingScan_chars (fun c => !(c == '.')) SpScan.base (pyLower s.data) hp trivial
    have hok : ∀ t ∈ spacingTokens (pyLower s.data), ∃ q, parseFloatTok t.1 = some q := by
      intro t ht
      obtain ⟨hne, hall⟩ := htoks t ht
      refine ⟨_, parseFloatTok_digits t.1 hne fun c hc => ?_⟩
      have hcp := (hall c hc).1
      simpa using hcp
    obtain ⟨vs, hvs⟩ :=
      spacingVals_ok (if containsSeq ['c', 'm'] (pyLower s.data) then 1/100 else 1) _ hok
    simp only [parse_spacing, if_neg hv]
    by_cases hms : spacingTokens (pyLower s.data) = []
    · exact ⟨(PyFloat.inf, PyFloat.inf), by simp [hms]⟩
    · simp only [if_neg hms, hvs]
      match vs with
      | [] => exact ⟨(PyFloat.inf, PyFloat.inf), rfl⟩
      | [v] => exact ⟨(PyFloat.val v, PyFloat.val v), rfl⟩
      | v1 :: v2 :: t => exact ⟨(PyFloat.val v1, PyFloat.val v2), rfl⟩

theorem parse_spacing_sentinel (s : String)
    (h : ∀ c ∈ s.data, c.isDigit = false ∧ c ≠ '.') :
    parse_spacing s = .ok (PyFloat.inf, PyFloat.inf) := by
  by_cases hv : s = ""
  · simp [parse_spacing, hv]
  · have hall : ∀ c ∈ pyLower s.data, isDigitOrDot c = false := by
      intro c hc
      obtain ⟨d, hdm, rfl⟩ := List.mem_map.mp hc
      have h1 : (pyLowerChar d).isDigit = false := by
        rw [pyLowerChar_isDigit]; exact (h d hdm).1
      have h2 := pyLowerChar_ne_dot (h d hdm).2
      simp [isDigitOrDot, h1, h2]
    simp [parse_spacing, if_neg hv, spacingTokens, spacingScan_base_nil _ hall]

/-! ### Claim C3: totality of the sort keys -/

/-- Claim C3, counterexample: parse_spacing is not total — on the input "."
the numeric regex matches the token ".", and Python float(".") raises
ValueError, so the key raises instead of returning a sorts-last sentinel. -/
theorem C3_spacing_not_total_cex :
    parse_spacing "." = Except.error PyErr.valueError := by
  simp +decide [parse_spacing, pyLower, pyLowerChar, spacingTokens, spacingScan,
    isDigitOrDot, isPySpace, containsSeq, leadsWith, spacingVals, parseFloatTok, splitDots]

/-- Claim C3 (amended): parse_maturity, parse_lifespan and parse_strata are
total; parse_spacing raises float()'s ValueError on inputs whose matched
numeric token is malformed (a dot-only or multi-dot token), and is total on
every input containing no dot. For every string with no digits and no dot
the maturity and spacing keys equal the sorts-last sentinel (inf, inf); the
lifespan key of such a non-empty string with none of the special keywords is
(9999, 9999) (blank input gives (inf, inf)); the strata key of any
unrecognized string is 99. -/
theorem C3_sort_keys_amended :
    (∀ s : String, '.' ∉ s.data → ∃ k, parse_spacing s = Except.ok k) ∧
    (∀ s : String, (∀ c ∈ s.data, c.isDigit = false ∧ c ≠ '.') →
      parse_spacing s = Except.ok (PyFloat.inf, PyFloat.inf)) ∧
    (∀ s : String, (∀ c ∈ s.data, c.isDigit = false) →
      parse_maturity s = (PyFloat.inf, PyFloat.inf)) ∧
    (∀ s : String, s ≠ "" → (∀ c ∈ s.data, c.isDigit = false) →
      containsSeq ['a', 'n', 'n', 'u', 'a', 'l'] (pyLower s.data) = false →
      containsSeq ['b', 'i', 'e', 'n', 'n', 'i', 'a', 'l'] (pyLower s.data) = false →
      containsSeq ['p', 'e', 'r', 'e', 'n', 'n', 'i', 'a', 'l'] (pyLower s.data) = false →
      parse_lifespan s = (PyFloat.val 9999, PyFloat.val 9999)) ∧
    parse_lifespan "" = (PyFloat.inf, PyFloat.inf) ∧
    (∀ s : String, s ≠ "Emergent" → s ≠ "Low" → s ≠ "Medium" → s ≠ "High" →
      parse_strata s = 99) := by
  refine ⟨parse_spacing_total_no_dot, parse_spacing_sentinel,
    fun s h => ?_, fun s hne h h1 h2 h3 => ?_, rfl, fun s h1 h2 h3 h4 => ?_⟩
  · by_cases hs : s = ""
    · simp [parse_maturity, hs]
    · simp [parse_maturity, if_neg hs, digitRuns_of_no_digits h]
  · simp [parse_lifespan, if_neg hne, h1, h2, h3, digitRuns_of_no_digits h]
  · unfold parse_strata
    rw [if_neg h1, if_neg h2, if_neg h3, if_neg h4]

/-- Witness for C3 (amended) at the digit-free, dot-free value "n/a". -/
theorem C3_sort_keys_amended_witness :
    parse_spacing "n/a" = Except.ok (PyFloat.inf, PyFloat.inf) ∧
    parse_maturity "n/a" = (PyFloat.inf, PyFloat.inf) ∧
    parse_lifespan "n/a" = (PyFloat.val 9999, PyFloat.val 9999) ∧
    parse_strata "n/a" = 99 :=
  ⟨C3_sort_keys_amended.2.1 "n/a" (by decide),
   C3_sort_keys_amended.2.2.1 "n/a" (by decide),
   C3_sort_keys_amended.2.2.2.1 "n/a" (by decide) (by decide) (by decide) (by decide) (by decide),
   C3_sort_keys_amended.2.2.2.2.2 "n/a" (by decide) (by decide) (by decide) (by decide)⟩

/-! ### Claim C4: spacing global unit bias -/

/-- Claim C4: the spacing key applies a global unit bias — a number with an
explicit unit uses that unit (cm scales by 1/100, m by 1); a number without
one is treated as centimeters exactly when "cm" occurs anywhere in the string
and as meters otherwise; the first value is the start, the second (if present)
the end, else end = start; no numeric match gives (inf, inf). Proved as the
equivalence of parse_spacing with the spec-side definition on every input,
plus the spec's own instances. -/
theorem C4_spacing_global_unit_bias :
    (∀ val : String, parse_spacing val = spacingKeySpec val) ∧
    parse_spacing "50 cm - 1 m" = Except.ok (PyFloat.val (1/2), PyFloat.val 1) ∧
    parse_spacing "10-20 cm" = Except.ok (PyFloat.val (1/10), PyFloat.val (1/5)) ∧
    parse_spacing "1-2 m" = Except.ok (PyFloat.val 1, PyFloat.val 2) ∧
    parse_spacing "to be determined" = Except.ok (PyFloat.inf, PyFloat.inf) := by
  refine ⟨parse_spacing_eq_spec, ?_, ?_, ?_, ?_⟩ <;>
    simp +decide [parse_spacing, pyLower, pyLowerChar, spacingTokens, spacingScan,
      isDigitOrDot, isPySpace, containsSeq, leadsWith, spacingVals, parseFloatTok,
      splitDots, digitsToNat, digitVal] <;>
    norm_num

end PlantCatalog

